import Mathlib

/-!
Verification of the Blink Controller in `src/main.cpp`.

The program is a straight-line Arduino sketch: `setup()` initializes the
serial port, prints a greeting, configures two pins as outputs and writes
them HIGH; `loop()` prints "LED is on", writes the builtin LED HIGH,
delays 200ms, prints "LED is off", writes it LOW, delays 200ms.

We embed the program shallowly as the trace of externally visible actions
it performs: each call to a hardware-abstraction primitive
(`Serial.begin`, `Serial.println`, `pinMode`, `digitalWrite`, `delay`)
becomes one `Event` in a list, in program order.  `setup` and `loopBody`
below are direct transcriptions of the two functions; `traceN n` is the
trace after initialization followed by `n` complete loop iterations.
-/

/-- Arduino constant `HIGH` (from `Arduino.h`). -/
def HIGH : Nat := 1

/-- Arduino constant `LOW` (from `Arduino.h`). -/
def LOW : Nat := 0

/-- Arduino constant `OUTPUT` (from `Arduino.h`). -/
def OUTPUT : Nat := 1

/-- Arduino constant `LED_BUILTIN`: pin 13 on the classic AVR boards this
sketch targets. -/
def LED_BUILTIN : Nat := 13

/-- One externally visible action of the sketch: a call to one of the
hardware-abstraction primitives it uses, with its arguments. -/
inductive Event : Type where
  | serialBegin (baud : Nat)
  | serialPrintln (s : String)
  | pinMode (pin : Nat) (mode : Nat)
  | digitalWrite (pin : Nat) (level : Nat)
  | delay (ms : Nat)
deriving DecidableEq, Repr

/-- Trace of `setup()` in `src/main.cpp`, one event per statement:
`Serial.begin(9600); Serial.println("Hello, World!");
pinMode(LED_BUILTIN, OUTPUT); digitalWrite(LED_BUILTIN, 1);
pinMode(3, OUTPUT); digitalWrite(3,1);`. -/
def setup : List Event :=
  [ Event.serialBegin 9600
  , Event.serialPrintln "Hello, World!"
  , Event.pinMode LED_BUILTIN OUTPUT
  , Event.digitalWrite LED_BUILTIN 1
  , Event.pinMode 3 OUTPUT
  , Event.digitalWrite 3 1 ]

/-- Trace of one invocation of `loop()` in `src/main.cpp`, one event per
statement: `Serial.println("LED is on"); digitalWrite(LED_BUILTIN, HIGH);
delay(200); Serial.println("LED is off"); digitalWrite(LED_BUILTIN, LOW);
delay(200);`. -/
def loopBody : List Event :=
  [ Event.serialPrintln "LED is on"
  , Event.digitalWrite LED_BUILTIN HIGH
  , Event.delay 200
  , Event.serialPrintln "LED is off"
  , Event.digitalWrite LED_BUILTIN LOW
  , Event.delay 200 ]

/-- The full trace of the sketch after initialization and `n` complete
iterations of the periodic loop. -/
def traceN : Nat → List Event
  | 0 => setup
  | n + 1 => traceN n ++ loopBody

/-- The sequence of levels written to a given pin by a trace, in order. -/
def writesTo (pin : Nat) (es : List Event) : List Nat :=
  es.filterMap fun e =>
    match e with
    | Event.digitalWrite p l => if p = pin then some l else none
    | _ => none

/-- The sequence of text lines emitted on the serial port by a trace, in
order. -/
def linesOf (es : List Event) : List String :=
  es.filterMap fun e =>
    match e with
    | Event.serialPrintln s => some s
    | _ => none

/-- A write-or-pause action affecting the timing of a given pin. -/
inductive Pulse : Type where
  | write (level : Nat)
  | pause (ms : Nat)
deriving DecidableEq, Repr

/-- The sequence of writes to a given pin and blocking delays performed by
a trace, in order: the projection of the trace that determines the timing
of that pin's level changes. -/
def pulses (pin : Nat) (es : List Event) : List Pulse :=
  es.filterMap fun e =>
    match e with
    | Event.digitalWrite p l => if p = pin then some (Pulse.write l) else none
    | Event.delay ms => some (Pulse.pause ms)
    | _ => none

theorem writesTo_append (pin : Nat) (l m : List Event) :
    writesTo pin (l ++ m) = writesTo pin l ++ writesTo pin m :=
  List.filterMap_append l m _

theorem linesOf_append (l m : List Event) :
    linesOf (l ++ m) = linesOf l ++ linesOf m :=
  List.filterMap_append l m _

theorem pulses_append (pin : Nat) (l m : List Event) :
    pulses pin (l ++ m) = pulses pin l ++ pulses pin m :=
  List.filterMap_append l m _

theorem traceN_length (n : Nat) : (traceN n).length = 6 + 6 * n := by
  induction n with
  | zero => rfl
  | succ n ih =>
    simp only [traceN, List.length_append, ih]
    simp [loopBody]
    ring

/-- Claim C3: the secondary pin (pin 3) is written exactly once over the
whole trace, with level HIGH, and that write happens during
initialization (it is already present in `traceN 0 = setup`). -/
theorem spec_C3 (n : Nat) :
    writesTo 3 (traceN n) = [HIGH] ∧ writesTo 3 setup = [HIGH] := by
  refine ⟨?_, by decide⟩
  induction n with
  | zero => decide
  | succ n ih =>
    rw [traceN, writesTo_append, ih]
    decide

/-- Witness for C3 at a concrete iteration count. -/
theorem spec_C3_witness :
    writesTo 3 (traceN 2) = [HIGH] ∧ writesTo 3 setup = [HIGH] :=
  spec_C3 2

/-- Claim C1: the sequence of levels written to the primary pin over the
whole trace is HIGH (from initialization) followed by one HIGH-then-LOW
pair per completed cycle; in particular the last write of initialization
alone (`traceN 0 = setup`) leaves the pin HIGH, and each cycle alternates
it HIGH then LOW. -/
theorem spec_C1 (n : Nat) :
    writesTo LED_BUILTIN (traceN n) =
      HIGH :: (List.replicate n [HIGH, LOW]).flatten ∧
    (writesTo LED_BUILTIN setup).getLast? = some HIGH := by
  refine ⟨?_, by decide⟩
  induction n with
  | zero => decide
  | succ n ih =>
    rw [traceN, writesTo_append, ih, List.replicate_succ']
    simp [loopBody, writesTo, HIGH, LOW, LED_BUILTIN]

/-- Claim C2: the events of each loop iteration (the slice of the trace
contributed by iteration `n`) are exactly, in order: print "LED is on",
write the primary pin HIGH, delay 200ms, print "LED is off", write the
primary pin LOW, delay 200ms. -/
theorem spec_C2 (n : Nat) :
    (traceN (n + 1)).drop (traceN n).length =
      [ Event.serialPrintln "LED is on"
      , Event.digitalWrite LED_BUILTIN HIGH
      , Event.delay 200
      , Event.serialPrintln "LED is off"
      , Event.digitalWrite LED_BUILTIN LOW
      , Event.delay 200 ] := by
  show (traceN n ++ loopBody).drop (traceN n).length = _
  rw [List.drop_left]
  rfl

/-- Claim C4: the serial output over the whole trace is exactly
"Hello, World!" once (from initialization), followed by one
"LED is on" / "LED is off" pair per completed cycle, and nothing else. -/
theorem spec_C4 (n : Nat) :
    linesOf (traceN n) =
      "Hello, World!" :: (List.replicate n ["LED is on", "LED is off"]).flatten := by
  induction n with
  | zero => rfl
  | succ n ih =>
    rw [traceN, linesOf_append, ih, List.replicate_succ']
    simp [loopBody, linesOf]

/-- Claim C5: within each cycle, the projection of the iteration's events
onto writes of the primary pin and blocking delays is exactly
write HIGH, pause 200ms, write LOW, pause 200ms: each write of the
primary pin in a cycle is followed by a 200ms block before the next
write. -/
theorem spec_C5 (n : Nat) :
    pulses LED_BUILTIN ((traceN (n + 1)).drop (traceN n).length) =
      [Pulse.write HIGH, Pulse.pause 200, Pulse.write LOW, Pulse.pause 200] := by
  show pulses LED_BUILTIN ((traceN n ++ loopBody).drop (traceN n).length) = _
  rw [List.drop_left]
  rfl

/-- Claim C7: the periodic cycle never reaches a terminal state: every
iteration's contribution to the trace is the same finite straight-line
sequence of six events, and the trace grows strictly with every
iteration, so the cycle repeats indefinitely. -/
theorem spec_C7 (n : Nat) :
    traceN (n + 1) = traceN n ++ loopBody ∧
    loopBody.length = 6 ∧
    (traceN n).length < (traceN (n + 1)).length := by
  refine ⟨rfl, rfl, ?_⟩
  rw [traceN_length, traceN_length]
  omega

/-- Claim C8: during initialization, before the first periodic cycle, the
primary pin `LED_BUILTIN` is itself written HIGH (and that is the only
write to it in `setup`). -/
theorem spec_C8 :
    Event.digitalWrite LED_BUILTIN HIGH ∈ setup ∧
    writesTo LED_BUILTIN setup = [HIGH] := by
  decide

/-- Counterexample to claim C6 as stated: in `setup` the greeting line is
emitted at index 1, before any pin is configured or written (the first
`pinMode` is at index 2 and the secondary-pin write at index 5), so the
greeting does not follow the pin operations. -/
theorem spec_C6_counterexample :
    setup.get? 1 = some (Event.serialPrintln "Hello, World!") ∧
    setup.get? 2 = some (Event.pinMode LED_BUILTIN OUTPUT) ∧
    setup.get? 5 = some (Event.digitalWrite 3 HIGH) ∧
    ¬ List.indexOf (Event.digitalWrite 3 HIGH) setup <
        List.indexOf (Event.serialPrintln "Hello, World!") setup := by
  decide

/-- Claim C6 amended: initialization emits the greeting message over the
serial channel first (after starting the serial port), and only then
configures the status-output pin and the secondary pin as outputs and
sets the secondary pin to its constant active level; the greeting is the
only line emitted during initialization. -/
theorem spec_C6_amended :
    List.indexOf (Event.serialBegin 9600) setup <
      List.indexOf (Event.serialPrintln "Hello, World!") setup ∧
    List.indexOf (Event.serialPrintln "Hello, World!") setup <
      List.indexOf (Event.pinMode LED_BUILTIN OUTPUT) setup ∧
    List.indexOf (Event.pinMode LED_BUILTIN OUTPUT) setup <
      List.indexOf (Event.pinMode 3 OUTPUT) setup ∧
    List.indexOf (Event.pinMode 3 OUTPUT) setup <
      List.indexOf (Event.digitalWrite 3 HIGH) setup ∧
    List.indexOf (Event.digitalWrite 3 HIGH) setup < setup.length ∧
    linesOf setup = ["Hello, World!"] := by
  decide

theorem traceN_get_small (n j : Nat) (hj : j < 6) :
    (traceN n).get? j = setup.get? j := by
  induction n with
  | zero => rfl
  | succ n ih =>
    rw [traceN, List.get?_append, ih]
    rw [traceN_length]
    omega

/-- Claim C9: in every trace, the very first event is the serial
initialization at baud rate exactly 9600, and every serial line is
emitted at a strictly later position. -/
theorem spec_C9 (n i : Nat) (s : String)
    (h : (traceN n).get? i = some (Event.serialPrintln s)) :
    (traceN n).get? 0 = some (Event.serialBegin 9600) ∧ 0 < i := by
  have h0 : (traceN n).get? 0 = some (Event.serialBegin 9600) := by
    rw [traceN_get_small n 0 (by omega)]
    rfl
  refine ⟨h0, ?_⟩
  rcases Nat.eq_zero_or_pos i with hi | hi
  · subst hi
    rw [h0] at h
    simp at h
  · exact hi

/-- Witness for C9: in the initialization-only trace, the greeting at
index 1 is preceded by the 9600-baud serial initialization at index 0. -/
theorem spec_C9_witness :
    (traceN 0).get? 0 = some (Event.serialBegin 9600) ∧ 0 < 1 :=
  spec_C9 0 1 "Hello, World!" (by rfl)

theorem mem_traceN (n : Nat) (e : Event) (h : e ∈ traceN n) :
    e ∈ setup ∨ e ∈ loopBody := by
  induction n with
  | zero => exact Or.inl h
  | succ n ih =>
    rw [traceN, List.mem_append] at h
    rcases h with h | h
    · exact ih h
    · exact Or.inr h

theorem write_pin_cases (p l : Nat)
    (h : Event.digitalWrite p l ∈ setup ∨ Event.digitalWrite p l ∈ loopBody) :
    p = LED_BUILTIN ∨ p = 3 := by
  rcases h with h | h <;>
    simp [setup, loopBody, LED_BUILTIN, HIGH, LOW] at h <;>
    simp [LED_BUILTIN] <;>
    omega

/-- Claim C10: every write in the trace, whether from initialization or
from a loop iteration, is preceded at a strictly earlier position by a
`pinMode(pin, OUTPUT)` configuring the same pin as an output. -/
theorem spec_C10 (n i p l : Nat)
    (h : (traceN n).get? i = some (Event.digitalWrite p l)) :
    ∃ j, j < i ∧ (traceN n).get? j = some (Event.pinMode p OUTPUT) := by
  have hmem : Event.digitalWrite p l ∈ traceN n := List.get?_mem h
  rcases write_pin_cases p l (mem_traceN n _ hmem) with hp | hp
  · subst hp
    refine ⟨2, ?_, ?_⟩
    · by_contra hlt
      push_neg at hlt
      rw [traceN_get_small n i (by omega)] at h
      interval_cases i <;> simp [setup, LED_BUILTIN] at h
    · rw [traceN_get_small n 2 (by omega)]
      rfl
  · subst hp
    refine ⟨4, ?_, ?_⟩
    · by_contra hlt
      push_neg at hlt
      rw [traceN_get_small n i (by omega)] at h
      interval_cases i <;> simp [setup, LED_BUILTIN] at h
    · rw [traceN_get_small n 4 (by omega)]
      rfl

/-- Witness for C10: in the trace with one loop iteration, the HIGH write
to the builtin LED at index 7 is preceded by its `pinMode` at index 2. -/
theorem spec_C10_witness :
    ∃ j, j < 7 ∧ (traceN 1).get? j = some (Event.pinMode LED_BUILTIN OUTPUT) :=
  spec_C10 1 7 LED_BUILTIN HIGH (by rfl)
